import Mathlib

/-!
Shallow embedding of the coordination logic in `xija/gui_fit/app.py`: the
parameter bounds check of `PanelText`, the slider quantizer of `PanelSlider`,
the drain loop of `MainWindow.fit_monitor`, the freeze/thaw part of
`MainWindow.parse_command`, and the text-entry float parsing of
`PanelText.par_attr_changed`.

Python float64 arithmetic is idealised as exact rational arithmetic.  Python
exceptions relevant to the claims are modelled explicitly (`PyErr`): float
division by zero raises `ZeroDivisionError` and dictionary access with a
missing key raises `KeyError`.
-/

namespace XijaGuiFit

/-- Python runtime errors relevant to this code: float division by zero, and
dictionary access with a missing key. -/
inductive PyErr where
  | zeroDivisionError
  | keyError
deriving DecidableEq

/-- Python float division `a / b`: raises `ZeroDivisionError` when `b == 0`,
otherwise exact division (float rounding idealised away). -/
def pydiv (a b : ℚ) : Except PyErr ℚ :=
  if b = 0 then Except.error PyErr.zeroDivisionError else Except.ok (a / b)

/-- Python `int()` applied to a float: truncation toward zero. -/
def pytrunc (q : ℚ) : ℤ :=
  if 0 ≤ q then ⌊q⌋ else ⌈q⌉

/-- One model parameter's numeric state (`par.val`, `par.min`, `par.max` in
`app.py`). -/
structure Par where
  val : ℚ
  min : ℚ
  max : ℚ
deriving DecidableEq

/-- Which parameter attribute a `PanelText` entry field writes (`self.attr`
is one of `'val'`, `'min'`, `'max'`). -/
inductive Attr where
  | val
  | min
  | max
deriving DecidableEq

/-- Python `setattr(self.par, self.attr, val)` in `PanelText.set_par_attr`. -/
def parSetattr (p : Par) (a : Attr) (v : ℚ) : Par :=
  match a with
  | Attr.val => { p with val := v }
  | Attr.min => { p with min := v }
  | Attr.max => { p with max := v }

/-- The clamp notices printed by `PanelText._bounds_check`. -/
inductive ClampNotice where
  | toMin
  | toMax
deriving DecidableEq

/-- `PanelText._bounds_check` (app.py lines 195-206).  Two sequential `if`
statements, not an `if`/`elif` chain: first, when `val < min`, clamp `val` up
to `min`; then, when the possibly already clamped `val` exceeds `max`, clamp
it down to `max`.  Returns the updated parameter together with the last
notice message set (the source returns the message string `msg`). -/
def bounds_check (p : Par) : Par × Option ClampNotice :=
  let q := if p.val < p.min then { p with val := p.min } else p
  let m : Option ClampNotice :=
    if p.val < p.min then some ClampNotice.toMin else none
  if q.val > q.max then ({ q with val := q.max }, some ClampNotice.toMax)
  else (q, m)

/-- The parameter-mutation core of `PanelText.set_par_attr` (app.py lines
216-218): write the attribute, then run the bounds check. -/
def set_par_attr (p : Par) (a : Attr) (v : ℚ) : Par × Option ClampNotice :=
  bounds_check (parSetattr p a v)

/-- The bounds in effect after a `PanelText` entry write: a `min` or `max`
write replaces that bound, a `val` write leaves both bounds alone. -/
def boundAfter (p : Par) (a : Attr) (v : ℚ) : ℚ × ℚ :=
  match a with
  | Attr.val => (p.min, p.max)
  | Attr.min => (v, p.max)
  | Attr.max => (p.min, v)

/-- The state of one `PanelSlider`: the cached parameter attributes
(`self.parmin`, `self.parmax`, `self.parval` from `__init__` and
`update_slider_val`), the scale factors `self.dx` and `self.idx`, and the
integer slider position (`self.value()`). -/
structure Slider where
  parmin : ℚ
  parmax : ℚ
  parval : ℚ
  dx : ℚ
  idx : ℚ
  value : ℤ
deriving DecidableEq

/-- Qt `QAbstractSlider.setValue`: the written position is bounded to the
slider's configured range, which `PanelSlider.__init__` sets to
`setMinimum(0)` / `setMaximum(100)`. -/
def sliderSetValue (s : Slider) (v : ℤ) : Slider :=
  { s with value := Max.max 0 (Min.min 100 v) }

/-- `PanelSlider.set_dx` (app.py lines 280-282): `dx = 100.0/(parmax-parmin)`
and `idx = 1.0/dx`, with Python float division raising `ZeroDivisionError` on
a zero-width range. -/
def set_dx (s : Slider) : Except PyErr Slider :=
  match pydiv 100 (s.parmax - s.parmin) with
  | Except.error e => Except.error e
  | Except.ok dx =>
    match pydiv 1 dx with
    | Except.error e => Except.error e
    | Except.ok idx => Except.ok { s with dx := dx, idx := idx }

/-- `PanelSlider.set_step_from_value` (app.py lines 284-286):
`step = int((val-parmin)*dx)` followed by `setValue(step)`. -/
def set_step_from_value (s : Slider) (v : ℚ) : Slider :=
  sliderSetValue s (pytrunc ((v - s.parmin) * s.dx))

/-- `PanelSlider.get_value_from_step` (app.py lines 288-290):
`value()*idx + parmin`. -/
def get_value_from_step (s : Slider) : ℚ :=
  (s.value : ℚ) * s.idx + s.parmin

/-- Slider position as the specification describes it: `round((val - min) *
scale)` with `scale = 100 / (max - min)`, clamped to `[0, 100]`.  Stated from
the spec's words, to be compared with the source's `set_step_from_value`. -/
def specPosition (pmin pmax v : ℚ) : ℤ :=
  Max.max 0 (Min.min 100 (round ((v - pmin) * (100 / (pmax - pmin)))))

/-- Worker fit status values carried in a message's `status` field. -/
inductive FitStatus where
  | running
  | finished
  | terminated
deriving DecidableEq

/-- The test `msg['status'] in ('terminated', 'finished')` from
`MainWindow.fit_monitor`. -/
def FitStatus.isTerminal : FitStatus → Bool
  | FitStatus.running => false
  | FitStatus.finished => true
  | FitStatus.terminated => true

/-- A message received from the fit worker's pipe.  Both fields are optional
so that malformed messages — dictionary lookups that raise `KeyError` in
Python — can be represented. -/
structure FitMsg where
  status : Option FitStatus
  parvals : Option (List ℚ)
deriving DecidableEq

/-- Result of the `while self.fit_worker.parent_pipe.poll()` drain loop in
`MainWindow.fit_monitor`: the last message read (the loop variable `msg`),
the final `fit_stopped` flag, whether `fit_process.join()` ran, the messages
left unread in the pipe, and the Python error, if any, that aborted the
loop. -/
structure DrainResult where
  msg : Option FitMsg
  fit_stopped : Bool
  joined : Bool
  remaining : List FitMsg
  error : Option PyErr
deriving DecidableEq

/-- The drain loop of `MainWindow.fit_monitor` (app.py lines 634-644): while
the pipe has a message, receive it, set
`fit_stopped = msg['status'] in ('terminated', 'finished')` — a missing
`status` key raises `KeyError`, aborting the whole tick — and on a terminal
status join the worker and break out of the loop. -/
def drain_msgs (msg : Option FitMsg) (fs : Bool) (pipe : List FitMsg) : DrainResult :=
  match pipe with
  | [] => ⟨msg, fs, false, [], none⟩
  | m :: rest =>
    match m.status with
    | none => ⟨some m, fs, false, rest, some PyErr.keyError⟩
    | some st =>
      if st.isTerminal then ⟨some m, true, true, rest, none⟩
      else drain_msgs (some m) false rest

/-- Outcome of one `fit_monitor` tick: the `parvals` vectors written to the
model (in order), whether the worker was joined, the final `fit_stopped`
flag, whether the 200 ms timer was re-armed, the error that escaped the
tick, if any, and the unread pipe contents. -/
structure TickResult where
  bulkUpdates : List (List ℚ)
  joined : Bool
  fit_stopped : Bool
  rearmed : Bool
  error : Option PyErr
  remaining : List FitMsg
deriving DecidableEq

/-- `MainWindow.fit_monitor` (app.py lines 631-657): drain the pipe; if some
message was read, write its `parvals` to the model (`msg['parvals']` raises
`KeyError` when the key is missing, aborting the tick); finally re-arm the
200 ms single-shot timer only when `fit_stopped` is false — an exception
escapes before the timer line, so no re-arm happens on error. -/
def fit_monitor (pipe : List FitMsg) : TickResult :=
  let d := drain_msgs none false pipe
  match d.error with
  | some e => ⟨[], d.joined, d.fit_stopped, false, some e, d.remaining⟩
  | none =>
    match d.msg with
    | none => ⟨[], d.joined, d.fit_stopped, !d.fit_stopped, none, d.remaining⟩
    | some m =>
      match m.parvals with
      | none => ⟨[], d.joined, d.fit_stopped, false, some PyErr.keyError, d.remaining⟩
      | some pv => ⟨[pv], d.joined, d.fit_stopped, !d.fit_stopped, none, d.remaining⟩

/-- One token of a shell glob pattern as understood by `fnmatch.translate`:
`*` (any sequence, including empty), `?` (any single character), or a literal
character. -/
inductive GlobTok where
  | star
  | qmark
  | lit (c : Char)
deriving DecidableEq

/-- Helper for the `*` token: try the continuation on every suffix of the
string (the `.*` produced by `fnmatch.translate` may consume any prefix). -/
def globStarAux (f : List Char → Bool) : List Char → Bool
  | [] => f []
  | c :: cs => f (c :: cs) || globStarAux f cs

/-- Anchored whole-string glob matching: the semantics of
`re.match(fnmatch.translate(pattern), name)` in `MainWindow.parse_command` —
`fnmatch.translate` produces a regex anchored at both ends in which `*`
becomes `.*` and `?` becomes `.`. -/
def globMatch : List GlobTok → List Char → Bool
  | [] => fun cs => cs.isEmpty
  | GlobTok.star :: ps => globStarAux (globMatch ps)
  | GlobTok.qmark :: ps => fun cs =>
      match cs with
      | [] => false
      | _ :: cs2 => globMatch ps cs2
  | GlobTok.lit a :: ps => fun cs =>
      match cs with
      | [] => false
      | c :: cs2 => (a == c) && globMatch ps cs2

/-- The two bulk checkbox commands of `MainWindow.parse_command`. -/
inductive FTCmd where
  | freeze
  | thaw
deriving DecidableEq

/-- One fittable parameter's command-visible state: its full name, its
`frozen` flag, and the check state of its fit-eligibility checkbox. -/
structure FitPar where
  full_name : List Char
  frozen : Bool
  checked : Bool
deriving DecidableEq

/-- The inner pattern loop of `MainWindow.parse_command` for `freeze`/`thaw`
(app.py lines 682-690), restricted to one parameter: for each pattern that
matches the parameter's full name, set the checkbox to `cmd == thaw` and
`frozen` to `cmd != thaw`. -/
def applyFreezeThawOne (cmd : FTCmd) (pats : List (List GlobTok)) (p : FitPar) : FitPar :=
  pats.foldl
    (fun q pat =>
      if globMatch pat q.full_name then
        { q with checked := cmd == FTCmd.thaw, frozen := !(cmd == FTCmd.thaw) }
      else q)
    p

/-- The `freeze`/`thaw` branch of `parse_command` over the whole parameter
table: the outer loop visits every parameter independently. -/
def applyFreezeThaw (cmd : FTCmd) (pats : List (List GlobTok)) (pars : List FitPar) : List FitPar :=
  pars.map (applyFreezeThawOne cmd pats)

/-- The glob pattern `foo*` from the specification's example, tokenised. -/
def fooStar : List GlobTok :=
  [GlobTok.lit 'f', GlobTok.lit 'o', GlobTok.lit 'o', GlobTok.star]

/-- The specification's example parameter table: `foo.bar`, `foo.baz`,
`qux.bar`, all thawed. -/
def demoPars : List FitPar :=
  [⟨['f', 'o', 'o', '.', 'b', 'a', 'r'], false, true⟩,
   ⟨['f', 'o', 'o', '.', 'b', 'a', 'z'], false, true⟩,
   ⟨['q', 'u', 'x', '.', 'b', 'a', 'r'], false, true⟩]

/-- Value of a list of decimal digits, most significant first. -/
def natOfDigits (cs : List Char) : ℕ :=
  cs.foldl (fun n c => 10 * n + (c.toNat - 48)) 0

/-- Removal of leading and trailing spaces, modelling `str.strip()` in
`PanelText.par_attr_changed`. -/
def stripSpaces (cs : List Char) : List Char :=
  ((cs.dropWhile (fun c => c == ' ')).reverse.dropWhile (fun c => c == ' ')).reverse

/-- Python `float(text)` on plain decimal literals: optional sign, then
digits with at most one decimal point and at least one digit in total;
anything else yields `none`, modelling the `ValueError` that
`PanelText.par_attr_changed` catches.  (Exponent and special-value spellings
accepted by Python are not modelled; the claim concerns only inputs that
fail to parse.) -/
def pyFloat (text : List Char) : Option ℚ :=
  let cs := stripSpaces text
  let sp : ℚ × List Char :=
    match cs with
    | '-' :: rest => (-1, rest)
    | '+' :: rest => (1, rest)
    | _ => (1, cs)
  let intPart := sp.2.takeWhile Char.isDigit
  let rest := sp.2.dropWhile Char.isDigit
  match rest with
  | [] => if intPart.isEmpty then none else some (sp.1 * (natOfDigits intPart : ℚ))
  | '.' :: frac =>
    if frac.all Char.isDigit && !(intPart.isEmpty && frac.isEmpty) then
      some (sp.1 * ((natOfDigits intPart : ℚ) +
        (natOfDigits frac : ℚ) / (10 : ℚ) ^ frac.length))
    else none
  | _ => none

/-- The pieces of GUI state touched by `PanelText.set_par_attr`: the
parameter, its slider, counters of slider repositionings and plot redraws,
the clamp notices printed, and any Python error that escaped. -/
structure UIState where
  par : Par
  slider : Slider
  sliderUpdates : ℕ
  plotUpdates : ℕ
  notices : List ClampNotice
  error : Option PyErr
deriving DecidableEq

/-- `PanelSlider.update_slider_val` (app.py lines 292-296): write the changed
attribute into the slider's cache, recompute `dx`/`idx` when a bound changed
(which can raise `ZeroDivisionError` after the cache write), then reposition
the slider from the cached value. -/
def update_slider_val (s : Slider) (v : ℚ) (a : Attr) : Slider × Option PyErr :=
  let s1 :=
    match a with
    | Attr.val => { s with parval := v }
    | Attr.min => { s with parmin := v }
    | Attr.max => { s with parmax := v }
  match a with
  | Attr.val => (set_step_from_value s1 s1.parval, none)
  | _ =>
    match set_dx s1 with
    | Except.error e => (s1, some e)
    | Except.ok s2 => (set_step_from_value s2 s2.parval, none)

/-- `PanelText.set_par_attr` with its side effects (app.py lines 216-222):
the parameter write plus bounds check, the printed clamp notice, the slider
update with the raw written value, then a plot redraw.  An exception from the
slider update escapes before the plot update. -/
def set_par_attr_ui (st : UIState) (a : Attr) (v : ℚ) : UIState :=
  let pn := set_par_attr st.par a v
  let notices :=
    match pn.2 with
    | none => st.notices
    | some n => n :: st.notices
  let su := update_slider_val st.slider v a
  match su.2 with
  | some e => { st with par := pn.1, notices := notices, slider := su.1, error := some e }
  | none =>
    { st with par := pn.1, notices := notices, slider := su.1,
              sliderUpdates := st.sliderUpdates + 1,
              plotUpdates := st.plotUpdates + 1, error := none }

/-- `PanelText.par_attr_changed` (app.py lines 208-214): parse the entry text
as a float; on `ValueError` do nothing (the `pass` branch), otherwise call
`set_par_attr` with the parsed value. -/
def par_attr_changed (text : List Char) (a : Attr) (st : UIState) : UIState :=
  match pyFloat text with
  | none => st
  | some v => set_par_attr_ui st a v

/-- Unfolded form of the value-entry write path: the written value `v` is
clamped by the two sequential `if` statements of `_bounds_check`, and the
bounds are untouched. -/
theorem set_par_attr_val_eq (p : Par) (v : ℚ) :
    (set_par_attr p Attr.val v).1 =
      ⟨if v < p.min then (if p.min > p.max then p.max else p.min)
        else (if v > p.max then p.max else v), p.min, p.max⟩ := by
  simp only [set_par_attr, parSetattr, bounds_check]
  split_ifs <;> rfl

/-- C1 counterexample: for the parameter with bounds `min = 5 > max = 3`,
writing the value `4` through the value-entry path yields `val = 3`, which
violates `min ≤ val`.  The claimed invariant `min ≤ val ≤ max` fails for
parameters whose bounds satisfy `min > max`. -/
theorem setValue_bounds_cex :
    (set_par_attr ⟨0, 5, 3⟩ Attr.val 4).1.val = 3 ∧
    ¬ ((set_par_attr ⟨0, 5, 3⟩ Attr.val 4).1.min ≤
        (set_par_attr ⟨0, 5, 3⟩ Attr.val 4).1.val) := by
  decide

/-- C1 (amended): for every parameter whose bounds satisfy `min ≤ max` and
every written value `v`, the value-entry write path leaves `val` with
`min ≤ val ≤ max`. -/
theorem setValue_within_bounds (p : Par) (v : ℚ) (h : p.min ≤ p.max) :
    p.min ≤ (set_par_attr p Attr.val v).1.val ∧
    (set_par_attr p Attr.val v).1.val ≤ p.max := by
  rw [set_par_attr_val_eq]
  dsimp only
  split_ifs <;> constructor <;> linarith

/-- Witness for `setValue_within_bounds` at the parameter `⟨0, 0, 10⟩` and the
out-of-range written value `99`. -/
theorem setValue_within_bounds_witness :
    (⟨0, 0, 10⟩ : Par).min ≤ (⟨0, 0, 10⟩ : Par).max ∧
    ((⟨0, 0, 10⟩ : Par).min ≤ (set_par_attr ⟨0, 0, 10⟩ Attr.val 99).1.val ∧
      (set_par_attr ⟨0, 0, 10⟩ Attr.val 99).1.val ≤ (⟨0, 0, 10⟩ : Par).max) :=
  ⟨by decide, setValue_within_bounds ⟨0, 0, 10⟩ 99 (by decide)⟩

/-- C3 counterexample: for the parameter with `min = 5 > max = 3`, writing the
value `10` yields `val = 3 = max`, not `min = 5` as the claim states — the
second `if` of `_bounds_check` re-clamps the result of the first, so the
max-clamp path wins. -/
theorem minClampPath_cex :
    (set_par_attr ⟨0, 5, 3⟩ Attr.val 10).1.val = 3 ∧ (3 : ℚ) ≠ 5 := by
  decide

/-- C3 (amended): for a parameter whose bounds satisfy `min > max`, every
value written through the value-entry path resolves deterministically to the
max-clamp path: the resulting `val` equals `max` (the min-check fires first,
but the subsequent max-check then re-clamps `min` down to `max`). -/
theorem minGtMax_resolves_to_max (p : Par) (v : ℚ) (h : p.max < p.min) :
    (set_par_attr p Attr.val v).1.val = p.max := by
  rw [set_par_attr_val_eq]
  dsimp only
  split_ifs <;> first | rfl | linarith

/-- Witness for `minGtMax_resolves_to_max` at the parameter `⟨0, 5, 3⟩` and
written value `7`. -/
theorem minGtMax_resolves_to_max_witness :
    (⟨0, 5, 3⟩ : Par).max < (⟨0, 5, 3⟩ : Par).min ∧
    (set_par_attr ⟨0, 5, 3⟩ Attr.val 7).1.val = (⟨0, 5, 3⟩ : Par).max :=
  ⟨by decide, minGtMax_resolves_to_max ⟨0, 5, 3⟩ 7 (by decide)⟩

/-- C4 counterexample: for the parameter `⟨val 5, min 0, max 10⟩`, writing the
new bound `min = 7` through the bound-entry path changes `val` from `5` to
`7`: `set_par_attr` runs `_bounds_check` after every attribute write,
including bound writes, so a bound edit that excludes the current value does
re-clamp it. -/
theorem setBound_keeps_val_cex :
    (set_par_attr ⟨5, 0, 10⟩ Attr.min 7).1.val = 7 ∧ (7 : ℚ) ≠ 5 := by
  decide

/-- C4 (amended): a bound write through the bound-entry path re-clamps `val`
into the new bounds exactly like a value write would: when the new bounds are
ordered, the resulting `val` lies within them, and `val` is left unchanged
precisely when it already satisfied the new bounds. -/
theorem setBound_reclamps (p : Par) (a : Attr) (v : ℚ) (ha : a ≠ Attr.val)
    (h : (boundAfter p a v).1 ≤ (boundAfter p a v).2) :
    ((boundAfter p a v).1 ≤ (set_par_attr p a v).1.val ∧
      (set_par_attr p a v).1.val ≤ (boundAfter p a v).2) ∧
    ((set_par_attr p a v).1.val = p.val ↔
      ((boundAfter p a v).1 ≤ p.val ∧ p.val ≤ (boundAfter p a v).2)) := by
  cases a with
  | val => exact absurd rfl ha
  | min =>
    simp only [boundAfter] at h ⊢
    simp only [set_par_attr, parSetattr, bounds_check]
    split_ifs with h1 h2 h2 <;> dsimp only at h1 h2 ⊢ <;>
      refine ⟨⟨by linarith, by linarith⟩, ?_⟩ <;> constructor <;>
        first
          | (intro h3; constructor <;> linarith)
          | (intro h3; linarith)
  | max =>
    simp only [boundAfter] at h ⊢
    simp only [set_par_attr, parSetattr, bounds_check]
    split_ifs with h1 h2 h2 <;> dsimp only at h1 h2 ⊢ <;>
      refine ⟨⟨by linarith, by linarith⟩, ?_⟩ <;> constructor <;>
        first
          | (intro h3; constructor <;> linarith)
          | (intro h3; linarith)

/-- Witness for `setBound_reclamps`: writing the bound `min = 7` on the
parameter `⟨5, 0, 10⟩` yields a value inside the new bounds `[7, 10]`, and the
value changed because the old value `5` violated the new lower bound. -/
theorem setBound_reclamps_witness :
    Attr.min ≠ Attr.val ∧
    (boundAfter ⟨5, 0, 10⟩ Attr.min 7).1 ≤ (boundAfter ⟨5, 0, 10⟩ Attr.min 7).2 ∧
    (((boundAfter ⟨5, 0, 10⟩ Attr.min 7).1 ≤ (set_par_attr ⟨5, 0, 10⟩ Attr.min 7).1.val ∧
      (set_par_attr ⟨5, 0, 10⟩ Attr.min 7).1.val ≤ (boundAfter ⟨5, 0, 10⟩ Attr.min 7).2) ∧
    ((set_par_attr ⟨5, 0, 10⟩ Attr.min 7).1.val = (⟨5, 0, 10⟩ : Par).val ↔
      ((boundAfter ⟨5, 0, 10⟩ Attr.min 7).1 ≤ (⟨5, 0, 10⟩ : Par).val ∧
        (⟨5, 0, 10⟩ : Par).val ≤ (boundAfter ⟨5, 0, 10⟩ Attr.min 7).2))) :=
  ⟨by decide, by decide, setBound_reclamps ⟨5, 0, 10⟩ Attr.min 7 (by decide) (by decide)⟩

/-- Helper: on a non-degenerate range, `set_dx` succeeds, computing
`dx = 100/(parmax-parmin)` and `idx = (parmax-parmin)/100`. -/
theorem set_dx_eq (s : Slider) (h : s.parmax ≠ s.parmin) :
    set_dx s = Except.ok { s with dx := 100 / (s.parmax - s.parmin),
                                  idx := (s.parmax - s.parmin) / 100 } := by
  have hd : s.parmax - s.parmin ≠ 0 := sub_ne_zero.mpr h
  have hdx : (100 : ℚ) / (s.parmax - s.parmin) ≠ 0 := div_ne_zero (by norm_num) hd
  simp [set_dx, pydiv, hd, hdx, one_div, inv_div]

/-- C5 counterexample: on a zero-width range (`parmax = parmin = 1`), the
scale recomputation `set_dx` performs the division `100.0/0.0` and raises
`ZeroDivisionError`; no `DegenerateRangeError` guard exists in the source. -/
theorem rescale_degenerate_cex :
    set_dx ⟨1, 1, 1, 0, 0, 0⟩ = Except.error PyErr.zeroDivisionError := by
  norm_num [set_dx, pydiv]

/-- C5 (amended): when `parmax ≠ parmin`, `set_dx` succeeds with a nonzero
scale factor, and the subsequent `set_step_from_value` / `get_value_from_step`
contain no division at all, so no division by zero can occur; when
`parmax = parmin`, `set_dx` raises `ZeroDivisionError` (not a
`DegenerateRangeError`, which the source does not define). -/
theorem rescale_nondegenerate (s : Slider) (h : s.parmax ≠ s.parmin) :
    set_dx s = Except.ok { s with dx := 100 / (s.parmax - s.parmin),
                                  idx := (s.parmax - s.parmin) / 100 } ∧
    (100 : ℚ) / (s.parmax - s.parmin) ≠ 0 :=
  ⟨set_dx_eq s h, div_ne_zero (by norm_num) (sub_ne_zero.mpr h)⟩

/-- Witness for `rescale_nondegenerate` on the range `[0, 10]`. -/
theorem rescale_nondegenerate_witness :
    (⟨0, 10, 5, 0, 0, 0⟩ : Slider).parmax ≠ (⟨0, 10, 5, 0, 0, 0⟩ : Slider).parmin ∧
    (set_dx ⟨0, 10, 5, 0, 0, 0⟩ =
      Except.ok { (⟨0, 10, 5, 0, 0, 0⟩ : Slider) with
        dx := 100 / ((⟨0, 10, 5, 0, 0, 0⟩ : Slider).parmax -
          (⟨0, 10, 5, 0, 0, 0⟩ : Slider).parmin),
        idx := ((⟨0, 10, 5, 0, 0, 0⟩ : Slider).parmax -
          (⟨0, 10, 5, 0, 0, 0⟩ : Slider).parmin) / 100 } ∧
      (100 : ℚ) / ((⟨0, 10, 5, 0, 0, 0⟩ : Slider).parmax -
        (⟨0, 10, 5, 0, 0, 0⟩ : Slider).parmin) ≠ 0) :=
  ⟨by decide, rescale_nondegenerate ⟨0, 10, 5, 0, 0, 0⟩ (by decide)⟩

/-- C6 counterexample: on the range `[0, 100]` (so `scale = 1`) with value
`0.9`, the source computes position `int(0.9) = 0` (truncation), while the
spec formula `round(0.9)` gives `1`. -/
theorem position_round_cex :
    set_dx ⟨0, 100, 0, 0, 0, 0⟩ = Except.ok ⟨0, 100, 0, 1, 1, 0⟩ ∧
    (set_step_from_value ⟨0, 100, 0, 1, 1, 0⟩ (9 / 10)).value = 0 ∧
    specPosition 0 100 (9 / 10) = 1 ∧ (0 : ℤ) ≠ 1 := by
  refine ⟨?_, ?_, ?_, by decide⟩
  · simp only [set_dx, pydiv]
    norm_num
  · simp only [set_step_from_value, sliderSetValue, pytrunc]
    norm_num
  · simp only [specPosition]
    norm_num [round_eq]

/-- C6 (amended): for bounds `min < max`, after the scale recomputation the
stored slider position for value `v` is `int((v - min) * (100/(max - min)))`
— Python `int()` truncation toward zero, not rounding — bounded by Qt into
`[0, 100]`. -/
theorem position_trunc_clamped (s : Slider) (v : ℚ) (h : s.parmin < s.parmax) :
    ∃ s2, set_dx s = Except.ok s2 ∧
      (set_step_from_value s2 v).value =
        Max.max 0 (Min.min 100 (pytrunc ((v - s.parmin) * (100 / (s.parmax - s.parmin))))) ∧
      0 ≤ (set_step_from_value s2 v).value ∧
      (set_step_from_value s2 v).value ≤ 100 := by
  refine ⟨_, set_dx_eq s (ne_of_gt h), ?_⟩
  simp only [set_step_from_value, sliderSetValue]
  exact ⟨trivial, by omega, by omega⟩

/-- Witness for `position_trunc_clamped` on the range `[0, 10]` with the
value `3`. -/
theorem position_trunc_clamped_witness :
    (⟨0, 10, 0, 0, 0, 0⟩ : Slider).parmin < (⟨0, 10, 0, 0, 0, 0⟩ : Slider).parmax ∧
    ∃ s2, set_dx ⟨0, 10, 0, 0, 0, 0⟩ = Except.ok s2 ∧
      (set_step_from_value s2 3).value =
        Max.max 0 (Min.min 100 (pytrunc ((3 - (⟨0, 10, 0, 0, 0, 0⟩ : Slider).parmin) *
          (100 / ((⟨0, 10, 0, 0, 0, 0⟩ : Slider).parmax -
            (⟨0, 10, 0, 0, 0, 0⟩ : Slider).parmin))))) ∧
      0 ≤ (set_step_from_value s2 3).value ∧
      (set_step_from_value s2 3).value ≤ 100 :=
  ⟨by decide, position_trunc_clamped ⟨0, 10, 0, 0, 0, 0⟩ 3 (by decide)⟩

/-- C7 (confirmed): for bounds `min < max` and a value `v ∈ [min, max]`, the
quantization round trip through the slider position changes the value by at
most `(max - min) / 100`. -/
theorem roundtrip_error_bound (s : Slider) (v : ℚ)
    (h : s.parmin < s.parmax) (h1 : s.parmin ≤ v) (h2 : v ≤ s.parmax) :
    ∃ s2, set_dx s = Except.ok s2 ∧
      |get_value_from_step (set_step_from_value s2 v) - v| ≤
        (s.parmax - s.parmin) / 100 := by
  refine ⟨_, set_dx_eq s (ne_of_gt h), ?_⟩
  set d : ℚ := s.parmax - s.parmin with hd
  have hd0 : 0 < d := by simp [hd]; linarith
  set t : ℚ := (v - s.parmin) * (100 / d) with ht
  have ht0 : 0 ≤ t := mul_nonneg (by linarith) (by positivity)
  have ht100 : t ≤ 100 := by
    have step : t ≤ d * (100 / d) :=
      mul_le_mul_of_nonneg_right (by linarith) (by positivity)
    calc t ≤ d * (100 / d) := step
    _ = 100 := by field_simp
  have hfl0 : 0 ≤ ⌊t⌋ := Int.floor_nonneg.mpr ht0
  have hfl100 : ⌊t⌋ ≤ 100 := by
    have : (⌊t⌋ : ℚ) ≤ 100 := le_trans (Int.floor_le t) ht100
    exact_mod_cast this
  have htr : pytrunc t = ⌊t⌋ := if_pos ht0
  have hclamp : Max.max 0 (Min.min 100 (pytrunc t)) = ⌊t⌋ := by
    rw [htr]; omega
  have hval : get_value_from_step (set_step_from_value
      { s with dx := 100 / d, idx := d / 100 } v) - v = ((⌊t⌋ : ℚ) - t) * (d / 100) := by
    simp only [get_value_from_step, set_step_from_value, sliderSetValue, ← ht, hclamp]
    have hv : v = s.parmin + t * (d / 100) := by
      rw [ht]; field_simp
    rw [hv]; ring
  rw [hval, abs_mul, abs_of_pos (by positivity : (0 : ℚ) < d / 100)]
  have habs : |(⌊t⌋ : ℚ) - t| ≤ 1 := by
    rw [abs_le]
    constructor
    · have := Int.lt_floor_add_one t
      linarith
    · have := Int.floor_le t
      linarith
  calc |(⌊t⌋ : ℚ) - t| * (d / 100) ≤ 1 * (d / 100) :=
        mul_le_mul_of_nonneg_right habs (by positivity)
  _ = d / 100 := one_mul _

/-- Witness for `roundtrip_error_bound` on the range `[0, 10]` with `v = 7`. -/
theorem roundtrip_error_bound_witness :
    (⟨0, 10, 0, 0, 0, 0⟩ : Slider).parmin < (⟨0, 10, 0, 0, 0, 0⟩ : Slider).parmax ∧
    (⟨0, 10, 0, 0, 0, 0⟩ : Slider).parmin ≤ 7 ∧
    (7 : ℚ) ≤ (⟨0, 10, 0, 0, 0, 0⟩ : Slider).parmax ∧
    ∃ s2, set_dx ⟨0, 10, 0, 0, 0, 0⟩ = Except.ok s2 ∧
      |get_value_from_step (set_step_from_value s2 7) - 7| ≤
        ((⟨0, 10, 0, 0, 0, 0⟩ : Slider).parmax -
          (⟨0, 10, 0, 0, 0, 0⟩ : Slider).parmin) / 100 :=
  ⟨by decide, by decide, by decide,
    roundtrip_error_bound ⟨0, 10, 0, 0, 0, 0⟩ 7 (by decide) (by decide) (by decide)⟩

/-- C2 (confirmed): draining the batch `[{running, [1,2]}, {running, [1,3]},
{finished, [1,4]}]` in one tick consumes all three messages in order, applies
exactly one parameter-vector update, with `[1,4]` — never `[1,2]` or `[1,3]`
— joins the worker, ends with `fit_stopped` true, and does not re-arm the
timer. -/
theorem fit_monitor_batch :
    fit_monitor [⟨some FitStatus.running, some [1, 2]⟩,
                 ⟨some FitStatus.running, some [1, 3]⟩,
                 ⟨some FitStatus.finished, some [1, 4]⟩] =
      ⟨[[1, 4]], true, true, false, none, []⟩ ∧
    [1, 2] ∉ (fit_monitor [⟨some FitStatus.running, some [1, 2]⟩,
                 ⟨some FitStatus.running, some [1, 3]⟩,
                 ⟨some FitStatus.finished, some [1, 4]⟩]).bulkUpdates ∧
    [1, 3] ∉ (fit_monitor [⟨some FitStatus.running, some [1, 2]⟩,
                 ⟨some FitStatus.running, some [1, 3]⟩,
                 ⟨some FitStatus.finished, some [1, 4]⟩]).bulkUpdates := by
  decide

/-- C9 counterexample: on a message whose `status` key is missing, the tick
does not re-arm the timer and ends with an uncaught `KeyError` — the claim
says the message is merely logged and the timer is re-armed to retry. -/
theorem malformed_msg_cex :
    (fit_monitor [⟨none, some [1]⟩]).rearmed = false ∧
    (fit_monitor [⟨none, some [1]⟩]).error = some PyErr.keyError ∧
    (fit_monitor [⟨none, some [1]⟩]).bulkUpdates = [] := by
  decide

/-- C9 (amended): a worker message missing its `status` field raises an
uncaught `KeyError` during the drain: no parameter values change, but the
tick aborts — the timer is not re-armed, so monitoring stops instead of
retrying on the next tick. -/
theorem malformed_msg_aborts (m : FitMsg) (rest : List FitMsg) (h : m.status = none) :
    (fit_monitor (m :: rest)).bulkUpdates = [] ∧
    (fit_monitor (m :: rest)).rearmed = false ∧
    (fit_monitor (m :: rest)).error = some PyErr.keyError := by
  simp [fit_monitor, drain_msgs, h]

/-- Witness for `malformed_msg_aborts` with the message `⟨none, none⟩` as the
whole pipe content. -/
theorem malformed_msg_aborts_witness :
    (⟨none, none⟩ : FitMsg).status = none ∧
    ((fit_monitor [⟨none, none⟩]).bulkUpdates = [] ∧
     (fit_monitor [⟨none, none⟩]).rearmed = false ∧
     (fit_monitor [⟨none, none⟩]).error = some PyErr.keyError) :=
  ⟨rfl, malformed_msg_aborts ⟨none, none⟩ [] rfl⟩

/-- Helper: the per-parameter pattern fold acts as a single conditional
update — the parameter is rewritten exactly when some pattern matches its
full name, and the name itself is never changed. -/
theorem applyFreezeThawOne_eq (cmd : FTCmd) (pats : List (List GlobTok)) (p : FitPar) :
    applyFreezeThawOne cmd pats p =
      if pats.any (fun pat => globMatch pat p.full_name) then
        { p with checked := cmd == FTCmd.thaw, frozen := !(cmd == FTCmd.thaw) }
      else p := by
  induction pats generalizing p with
  | nil => rfl
  | cons pat pats ih =>
    by_cases hm : globMatch pat p.full_name = true
    · have h1 : applyFreezeThawOne cmd (pat :: pats) p =
          applyFreezeThawOne cmd pats
            { p with checked := cmd == FTCmd.thaw, frozen := !(cmd == FTCmd.thaw) } := by
        simp [applyFreezeThawOne, hm]
      rw [h1, ih]
      simp only [List.any_cons, hm, Bool.true_or, if_true]
      split_ifs <;> rfl
    · have h1 : applyFreezeThawOne cmd (pat :: pats) p = applyFreezeThawOne cmd pats p := by
        simp [applyFreezeThawOne, hm]
      rw [h1, ih]
      have hmf : globMatch pat p.full_name = false := Bool.eq_false_iff.mpr hm
      simp only [List.any_cons, hmf, Bool.false_or]

/-- C8 (confirmed): for the `freeze`/`thaw` command with a list of glob
patterns, every parameter whose full name matches at least one pattern
(anchored whole-string match, logical OR across patterns) gets its `frozen`
flag set to the command's polarity (`freeze` → true, `thaw` → false) with its
name untouched, and every parameter matching no pattern is left completely
unchanged. -/
theorem freeze_thaw_glob (cmd : FTCmd) (pats : List (List GlobTok))
    (pars : List FitPar) (p : FitPar) (hp : p ∈ pars) :
    applyFreezeThawOne cmd pats p ∈ applyFreezeThaw cmd pats pars ∧
    ((∃ pat ∈ pats, globMatch pat p.full_name = true) →
      (applyFreezeThawOne cmd pats p).frozen = (cmd == FTCmd.freeze) ∧
      (applyFreezeThawOne cmd pats p).full_name = p.full_name) ∧
    ((∀ pat ∈ pats, globMatch pat p.full_name = false) →
      applyFreezeThawOne cmd pats p = p) := by
  refine ⟨List.mem_map_of_mem _ hp, ?_, ?_⟩
  · intro hex
    obtain ⟨pat, hmem, hmatch⟩ := hex
    have hany : pats.any (fun pat => globMatch pat p.full_name) = true :=
      List.any_eq_true.mpr ⟨pat, hmem, hmatch⟩
    rw [applyFreezeThawOne_eq, if_pos hany]
    exact ⟨by cases cmd <;> rfl, rfl⟩
  · intro hall
    have hany : ¬ pats.any (fun pat => globMatch pat p.full_name) = true := by
      rw [List.any_eq_true]
      rintro ⟨pat, hmem, hmatch⟩
      rw [hall pat hmem] at hmatch
      exact Bool.false_ne_true hmatch
    rw [applyFreezeThawOne_eq, if_neg hany]

/-- Witness for `freeze_thaw_glob`: freezing with pattern `foo*` on the
example table `foo.bar`, `foo.baz`, `qux.bar`, instantiated at `foo.bar`. -/
theorem freeze_thaw_glob_witness :
    (⟨['f', 'o', 'o', '.', 'b', 'a', 'r'], false, true⟩ : FitPar) ∈ demoPars ∧
    (applyFreezeThawOne FTCmd.freeze [fooStar]
        ⟨['f', 'o', 'o', '.', 'b', 'a', 'r'], false, true⟩ ∈
      applyFreezeThaw FTCmd.freeze [fooStar] demoPars ∧
    ((∃ pat ∈ [fooStar], globMatch pat
        (⟨['f', 'o', 'o', '.', 'b', 'a', 'r'], false, true⟩ : FitPar).full_name = true) →
      (applyFreezeThawOne FTCmd.freeze [fooStar]
          ⟨['f', 'o', 'o', '.', 'b', 'a', 'r'], false, true⟩).frozen =
        (FTCmd.freeze == FTCmd.freeze) ∧
      (applyFreezeThawOne FTCmd.freeze [fooStar]
          ⟨['f', 'o', 'o', '.', 'b', 'a', 'r'], false, true⟩).full_name =
        (⟨['f', 'o', 'o', '.', 'b', 'a', 'r'], false, true⟩ : FitPar).full_name) ∧
    ((∀ pat ∈ [fooStar], globMatch pat
        (⟨['f', 'o', 'o', '.', 'b', 'a', 'r'], false, true⟩ : FitPar).full_name = false) →
      applyFreezeThawOne FTCmd.freeze [fooStar]
          ⟨['f', 'o', 'o', '.', 'b', 'a', 'r'], false, true⟩ =
        ⟨['f', 'o', 'o', '.', 'b', 'a', 'r'], false, true⟩)) :=
  ⟨by decide, freeze_thaw_glob FTCmd.freeze [fooStar] demoPars
    ⟨['f', 'o', 'o', '.', 'b', 'a', 'r'], false, true⟩ (by decide)⟩

/-- C10 (confirmed): submitting entry text that does not parse as a float is
silently ignored — `par_attr_changed` catches the `ValueError` and leaves the
whole GUI state (parameter, slider, update counters, notices) unchanged. -/
theorem unparseable_text_ignored (text : List Char) (a : Attr) (st : UIState)
    (h : pyFloat text = none) :
    par_attr_changed text a st = st := by
  simp [par_attr_changed, h]

/-- Witness for `unparseable_text_ignored` on the text `12x`. -/
theorem unparseable_text_ignored_witness :
    pyFloat ['1', '2', 'x'] = none ∧
    par_attr_changed ['1', '2', 'x'] Attr.val
        ⟨⟨0, 0, 1⟩, ⟨0, 1, 0, 100, 1 / 100, 0⟩, 0, 0, [], none⟩ =
      ⟨⟨0, 0, 1⟩, ⟨0, 1, 0, 100, 1 / 100, 0⟩, 0, 0, [], none⟩ :=
  ⟨by decide, unparseable_text_ignored ['1', '2', 'x'] Attr.val
    ⟨⟨0, 0, 1⟩, ⟨0, 1, 0, 100, 1 / 100, 0⟩, 0, 0, [], none⟩ (by decide)⟩

end XijaGuiFit
